import Mathlib

/-!
Verification of the Ed25519 signing provider (`src/provider.rs`).

The development embeds the provider shallowly:

* `Signature`, `PublicKey`, `PrivateKey` model the value types re-exported
  from the ed25519 signing crate; bytes are `Fin 256`.
* The ed25519 primitive itself is out of scope for the repository (its spec
  treats it as an opaque primitive exposing `sign(bytes) -> signature` and
  `verify(bytes, signature, public_key) -> bool`), so it is modelled here by
  an executable deterministic scheme satisfying that contract: `sign`
  produces a 64-byte tag determined by the key and the data, and `verify`
  recomputes that tag from the public key and compares.
* `BaseVote`, `BaseProposal`, `BaseProposalPart` live in `src/context.rs`,
  which is not among the sources; they are modelled from the spec.
* `bincode` serialization is modelled as fixed-order little-endian field
  concatenation returning an `Option` (the spec notes the mechanism is
  fallible); the provider code's `.unwrap_or_default()` result handling is
  embedded verbatim as `toSignBytesFrom`.
-/

/-- A byte, as in Rust's `u8`. -/
abbrev Byte := Fin 256

/-- Little-endian base-256 digits of `n`, padded/truncated to `k` bytes. -/
def natToBytesLE : Nat → Nat → List Byte
  | _, 0 => []
  | n, k + 1 => (⟨n % 256, Nat.mod_lt _ (by norm_num)⟩ : Byte) :: natToBytesLE (n / 256) k

theorem natToBytesLE_length (n k : Nat) : (natToBytesLE n k).length = k := by
  induction k generalizing n with
  | zero => rfl
  | succ k ih => simp [natToBytesLE, ih]

/-- Modelled from the spec: an ed25519 private key ("secret scalar material",
§3), re-exported from the signing crate. -/
structure PrivateKey where
  scalar : Nat
deriving DecidableEq

/-- Modelled from the spec: an ed25519 public key, "derived deterministically
from a Private Key" (§3). -/
structure PublicKey where
  point : Nat
deriving DecidableEq

/-- Modelled from the spec: public-key derivation; in the model the point is
the scalar itself, which keeps derivation deterministic and injective. -/
def PrivateKey.public_key (sk : PrivateKey) : PublicKey :=
  ⟨sk.scalar⟩

/-- A signature: a "fixed-size (64-byte) opaque value" (§3).  In the signing
crate `Signature::from_bytes` accepts any 64-byte array, so the type is
exactly the 64-byte sequences. -/
def Signature := { l : List Byte // l.length = 64 }

instance : DecidableEq Signature :=
  inferInstanceAs (DecidableEq { l : List Byte // l.length = 64 })

/-- Embeds `Signature::from_bytes` from the signing crate: builds a signature
from a 64-byte sequence, validating nothing beyond the length (carried by the
array type in Rust, by the proof argument here). -/
def Signature.from_bytes (l : List Byte) (h : l.length = 64) : Signature :=
  ⟨l, h⟩

/-- Embeds `Signature::to_bytes`: the underlying 64 bytes. -/
def Signature.to_bytes (s : Signature) : List Byte :=
  s.val

/-- Modelled from the spec: a deterministic keyed digest standing in for the
opaque ed25519 signing math.  Any injective-enough executable function of
(key, data) serves; the provider under verification never inspects it. -/
def macDigest (key : Nat) (data : List Byte) : Nat :=
  data.foldl (fun a b => a * 256 + b.val + 1) (key + 1)

/-- Modelled from the spec: the primitive `sign(bytes) -> signature` of the
opaque signature algorithm (`PrivateKey::sign` in the signing crate),
deterministic in the key and the data. -/
def PrivateKey.sign (sk : PrivateKey) (data : List Byte) : Signature :=
  ⟨natToBytesLE (macDigest sk.scalar data) 64, natToBytesLE_length _ _⟩

/-- Modelled from the spec: the signing crate's opaque verification error. -/
inductive SignatureError
  | invalid
deriving DecidableEq

/-- Modelled from the spec: the primitive
`verify(bytes, signature, public_key) -> Result` of the opaque signature
algorithm (`PublicKey::verify` in the signing crate): succeeds exactly on the
signature the matching private key produces over the same data. -/
def PublicKey.verify (pk : PublicKey) (data : List Byte) (s : Signature) :
    Except SignatureError Unit :=
  if s = PrivateKey.sign ⟨pk.point⟩ data then .ok () else .error .invalid

/-- Modelled from the spec: `BaseVote` is defined in `src/context.rs`, which
is not among the sources; its fields follow the spec's end-to-end scenario
(§8): height, round, value hash, voter. -/
structure BaseVote where
  height : Nat
  round : Nat
  value : List Byte
  voter : PublicKey
deriving DecidableEq

/-- Modelled from the spec: `BaseProposal` is defined in `src/context.rs`,
which is not among the sources; modelled as an immutable value object with
height, round and a proposed value (§3). -/
structure BaseProposal where
  height : Nat
  round : Nat
  value : List Byte
deriving DecidableEq

/-- Modelled from the spec: `BaseProposalPart` ("proposal fragments", §1) is
defined in `src/context.rs`, which is not among the sources; modelled as an
immutable fragment with height, round, fragment index and payload. -/
structure BaseProposalPart where
  height : Nat
  round : Nat
  index : Nat
  data : List Byte
deriving DecidableEq

/-- Modelled from bincode's documented fixed-int little-endian format:
a 64-bit unsigned integer field. -/
def bincodeNat (n : Nat) : List Byte :=
  natToBytesLE (n % 2 ^ 64) 8

/-- Modelled from bincode's documented format: a byte sequence is serialized
as its 64-bit length followed by its bytes. -/
def bincodeSeq (l : List Byte) : List Byte :=
  bincodeNat l.length ++ l

/-- Modelled from bincode: `bincode::serialize` on a `BaseVote`, fixed-order
field concatenation.  The result is an `Option` because the spec treats the
serialization mechanism as fallible (§4.1: "if the underlying serialization
mechanism can fail (e.g. unsupported value)"); on the modelled closed field
set it always succeeds. -/
def bincodeSerializeVote (v : BaseVote) : Option (List Byte) :=
  some (bincodeNat v.height ++ bincodeNat v.round ++ bincodeSeq v.value ++
    bincodeNat v.voter.point)

/-- Modelled from bincode: `bincode::serialize` on a `BaseProposal`. -/
def bincodeSerializeProposal (p : BaseProposal) : Option (List Byte) :=
  some (bincodeNat p.height ++ bincodeNat p.round ++ bincodeSeq p.value)

/-- Modelled from bincode: `bincode::serialize` on a `BaseProposalPart`. -/
def bincodeSerializeProposalPart (p : BaseProposalPart) : Option (List Byte) :=
  some (bincodeNat p.height ++ bincodeNat p.round ++ bincodeNat p.index ++
    bincodeSeq p.data)

/-- Embeds the result handling `bincode::serialize(self).unwrap_or_default()`
shared by the three `ToSignBytes` impls (provider.rs lines 86-104): a failed
serialization (`none`, Rust's `Err`) is collapsed to `Vec::default()`, the
empty byte sequence, instead of being propagated. -/
def toSignBytesFrom (r : Option (List Byte)) : List Byte :=
  r.getD []

/-- Embeds `impl ToSignBytes for BaseVote` (provider.rs lines 86-92). -/
def BaseVote.to_sign_bytes (v : BaseVote) : List Byte :=
  toSignBytesFrom (bincodeSerializeVote v)

/-- Embeds `impl ToSignBytes for BaseProposal` (provider.rs lines 94-98). -/
def BaseProposal.to_sign_bytes (p : BaseProposal) : List Byte :=
  toSignBytesFrom (bincodeSerializeProposal p)

/-- Embeds `impl ToSignBytes for BaseProposalPart` (provider.rs
lines 100-104). -/
def BaseProposalPart.to_sign_bytes (p : BaseProposalPart) : List Byte :=
  toSignBytesFrom (bincodeSerializeProposalPart p)

/-- The signed-message envelope (`SignedMessage` from the consensus core
types): a message paired with a signature.  `SignedVote`, `SignedProposal`,
`SignedProposalPart`, `SignedExtension` are its instances. -/
structure SignedMessage (α : Type) where
  message : α
  signature : Signature
deriving DecidableEq

/-- Embeds `SignedMessage::new`. -/
def SignedMessage.new {α : Type} (m : α) (s : Signature) : SignedMessage α :=
  ⟨m, s⟩

/-- Embeds `Ed25519Provider` (provider.rs lines 14-17): holds the private
key. -/
structure Ed25519Provider where
  private_key : PrivateKey
deriving DecidableEq

/-- Embeds `Ed25519Provider::new` (provider.rs lines 21-23). -/
def Ed25519Provider.new (private_key : PrivateKey) : Ed25519Provider :=
  ⟨private_key⟩

/-- Modelled from the spec: the state of the process-wide cryptographically
secure random source (`rand::thread_rng()`), made an explicit value so that
key generation is a function of it. -/
structure Rng where
  state : Nat
deriving DecidableEq

/-- Modelled from the spec: `PrivateKey::generate` draws fresh key material
from the given random source. -/
def PrivateKey.generate (rng : Rng) : PrivateKey :=
  ⟨rng.state⟩

/-- Embeds `Ed25519Provider::new_test` (provider.rs lines 26-29): generates a
fresh private key from the process-wide RNG (modelled as the explicit `rng`
argument) and delegates to `new`. -/
def Ed25519Provider.new_test (rng : Rng) : Ed25519Provider :=
  Ed25519Provider.new (PrivateKey.generate rng)

/-- Embeds `impl Default for Ed25519Provider` (provider.rs lines 52-56),
with the process-wide RNG state as an explicit argument. -/
def Ed25519Provider.default (rng : Rng) : Ed25519Provider :=
  Ed25519Provider.new_test rng

/-- Embeds `Ed25519Provider::public_key` (provider.rs lines 32-34). -/
def Ed25519Provider.public_key (p : Ed25519Provider) : PublicKey :=
  p.private_key.public_key

/-- Embeds `Ed25519Provider::sign` (provider.rs lines 42-44): sign raw
bytes with the held private key. -/
def Ed25519Provider.sign (p : Ed25519Provider) (data : List Byte) : Signature :=
  p.private_key.sign data

/-- Embeds `Ed25519Provider::verify` (provider.rs lines 47-49):
`public_key.verify(data, signature).is_ok()`. -/
def Ed25519Provider.verify (_p : Ed25519Provider) (data : List Byte)
    (signature : Signature) (public_key : PublicKey) : Bool :=
  (public_key.verify data signature).isOk

/-- Embeds the error kind of the decoding error (`std::io::ErrorKind`). -/
inductive ErrorKind
  | invalidData
deriving DecidableEq

/-- Embeds `std::io::Error` as constructed by `decode_signature`: a kind
plus a message. -/
structure IOError where
  kind : ErrorKind
  message : String
deriving DecidableEq

/-- Embeds `Ed25519Provider::decode_signature` (provider.rs lines 64-74):
rejects any input whose length is not 64 with an invalid-data error, and
otherwise rebuilds the signature from the bytes, validating nothing else. -/
def Ed25519Provider.decode_signature (bytes : List Byte) :
    Except IOError Signature :=
  if h : bytes.length ≠ 64 then
    .error ⟨ErrorKind.invalidData, "Invalid signature length"⟩
  else
    .ok (Signature.from_bytes bytes (not_not.mp h))

/-- Embeds `Ed25519Provider::encode_signature` (provider.rs lines 76-78):
`signature.to_bytes().to_vec()`. -/
def Ed25519Provider.encode_signature (signature : Signature) : List Byte :=
  signature.to_bytes

/-- Embeds `sign_vote` (provider.rs lines 107-110). -/
def Ed25519Provider.sign_vote (p : Ed25519Provider) (vote : BaseVote) :
    SignedMessage BaseVote :=
  SignedMessage.new vote (p.sign vote.to_sign_bytes)

/-- Embeds `verify_signed_vote` (provider.rs lines 112-119). -/
def Ed25519Provider.verify_signed_vote (_p : Ed25519Provider) (vote : BaseVote)
    (signature : Signature) (public_key : PublicKey) : Bool :=
  (public_key.verify vote.to_sign_bytes signature).isOk

/-- Embeds `sign_proposal` (provider.rs lines 121-124). -/
def Ed25519Provider.sign_proposal (p : Ed25519Provider)
    (proposal : BaseProposal) : SignedMessage BaseProposal :=
  SignedMessage.new proposal (p.sign proposal.to_sign_bytes)

/-- Embeds `verify_signed_proposal` (provider.rs lines 126-133). -/
def Ed25519Provider.verify_signed_proposal (_p : Ed25519Provider)
    (proposal : BaseProposal) (signature : Signature)
    (public_key : PublicKey) : Bool :=
  (public_key.verify proposal.to_sign_bytes signature).isOk

/-- Embeds `sign_proposal_part` (provider.rs lines 135-138). -/
def Ed25519Provider.sign_proposal_part (p : Ed25519Provider)
    (proposal_part : BaseProposalPart) : SignedMessage BaseProposalPart :=
  SignedMessage.new proposal_part (p.sign proposal_part.to_sign_bytes)

/-- Embeds `verify_signed_proposal_part` (provider.rs lines 140-147). -/
def Ed25519Provider.verify_signed_proposal_part (_p : Ed25519Provider)
    (proposal_part : BaseProposalPart) (signature : Signature)
    (public_key : PublicKey) : Bool :=
  (public_key.verify proposal_part.to_sign_bytes signature).isOk

/-- Embeds `sign_vote_extension` (provider.rs lines 149-152): the extension
payload is signed as raw bytes, with no structural encoding. -/
def Ed25519Provider.sign_vote_extension (p : Ed25519Provider)
    (extension : List Byte) : SignedMessage (List Byte) :=
  SignedMessage.new extension (p.sign extension)

/-- Embeds `verify_signed_vote_extension` (provider.rs lines 154-161). -/
def Ed25519Provider.verify_signed_vote_extension (_p : Ed25519Provider)
    (extension : List Byte) (signature : Signature)
    (public_key : PublicKey) : Bool :=
  (public_key.verify extension signature).isOk

/-! ## Helper lemmas -/

theorem verify_sign_self (k : PrivateKey) (data : List Byte) :
    (k.public_key.verify data (k.sign data)).isOk = true := by
  have h : k.sign data = PrivateKey.sign ⟨k.public_key.point⟩ data := rfl
  unfold PublicKey.verify
  rw [if_pos h]
  rfl

/-! ## Claim theorems -/

/-- Claim C1 (code bug): at a failed serialization (`none`, Rust's `Err`), the
`ToSignBytes` impls' result handling `bincode::serialize(self).unwrap_or_default()`
returns the default empty byte sequence as the signing payload, rather than
surfacing the failure as a fatal error or propagating it to the caller. -/
theorem c1_encoding_failure_swallowed : toSignBytesFrom none = [] := rfl

/-- Claim C2: for every key `k` and message of each structured variant,
verifying the signature produced by signing with `k` against `k`'s public key
succeeds. -/
theorem c2_sign_verify_round_trip (k : PrivateKey) :
    (∀ v : BaseVote,
      (Ed25519Provider.new k).verify_signed_vote v
        ((Ed25519Provider.new k).sign_vote v).signature
        (Ed25519Provider.new k).public_key = true)
    ∧ (∀ pr : BaseProposal,
      (Ed25519Provider.new k).verify_signed_proposal pr
        ((Ed25519Provider.new k).sign_proposal pr).signature
        (Ed25519Provider.new k).public_key = true)
    ∧ (∀ q : BaseProposalPart,
      (Ed25519Provider.new k).verify_signed_proposal_part q
        ((Ed25519Provider.new k).sign_proposal_part q).signature
        (Ed25519Provider.new k).public_key = true) :=
  ⟨fun v => verify_sign_self k v.to_sign_bytes,
   fun pr => verify_sign_self k pr.to_sign_bytes,
   fun q => verify_sign_self k q.to_sign_bytes⟩

/-- Claim C3: `to_sign_bytes` is a pure, deterministic function of the
message's logical content: two messages of the same variant with equal field
values have equal signing bytes. -/
theorem c3_to_sign_bytes_deterministic :
    (∀ v1 v2 : BaseVote, v1.height = v2.height → v1.round = v2.round →
      v1.value = v2.value → v1.voter = v2.voter →
      v1.to_sign_bytes = v2.to_sign_bytes)
    ∧ (∀ p1 p2 : BaseProposal, p1.height = p2.height → p1.round = p2.round →
      p1.value = p2.value → p1.to_sign_bytes = p2.to_sign_bytes)
    ∧ (∀ q1 q2 : BaseProposalPart, q1.height = q2.height → q1.round = q2.round →
      q1.index = q2.index → q1.data = q2.data →
      q1.to_sign_bytes = q2.to_sign_bytes) := by
  refine ⟨fun v1 v2 h1 h2 h3 h4 => ?_, fun p1 p2 h1 h2 h3 => ?_,
    fun q1 q2 h1 h2 h3 h4 => ?_⟩
  · cases v1; cases v2; cases h1; cases h2; cases h3; cases h4; rfl
  · cases p1; cases p2; cases h1; cases h2; cases h3; rfl
  · cases q1; cases q2; cases h1; cases h2; cases h3; cases h4; rfl

/-- Witness for C3: the determinism theorem applied at the spec's §8 vote at
height 5, round 1, and matching concrete proposals and proposal parts. -/
theorem c3_witness :
    (BaseVote.mk 5 1 [] ⟨0⟩).to_sign_bytes = (BaseVote.mk 5 1 [] ⟨0⟩).to_sign_bytes
    ∧ (BaseProposal.mk 5 1 []).to_sign_bytes = (BaseProposal.mk 5 1 []).to_sign_bytes
    ∧ (BaseProposalPart.mk 5 1 0 []).to_sign_bytes
        = (BaseProposalPart.mk 5 1 0 []).to_sign_bytes :=
  ⟨c3_to_sign_bytes_deterministic.1 _ _ rfl rfl rfl rfl,
   c3_to_sign_bytes_deterministic.2.1 _ _ rfl rfl rfl,
   c3_to_sign_bytes_deterministic.2.2 _ _ rfl rfl rfl rfl⟩

/-- Claim C4: decoding the encoding of any valid signature yields it back. -/
theorem c4_signature_codec_round_trip (s : Signature) :
    Ed25519Provider.decode_signature (Ed25519Provider.encode_signature s)
      = Except.ok s := by
  have h : ¬(Ed25519Provider.encode_signature s).length ≠ 64 :=
    not_not.mpr s.property
  unfold Ed25519Provider.decode_signature
  rw [dif_neg h]
  rfl

/-- Claim C5: `decode_signature` fails with the invalid-length decoding error
exactly when the input length is not 64, succeeds on every 64-byte input
regardless of content, and `encode_signature` is total and always produces
exactly 64 bytes. -/
theorem c5_decode_length_encode_total :
    (∀ bytes : List Byte,
      (bytes.length ≠ 64 →
        Ed25519Provider.decode_signature bytes
          = Except.error ⟨ErrorKind.invalidData, "Invalid signature length"⟩)
      ∧ (bytes.length = 64 →
        (Ed25519Provider.decode_signature bytes).isOk = true))
    ∧ (∀ s : Signature, (Ed25519Provider.encode_signature s).length = 64) := by
  refine ⟨fun bytes => ⟨fun hne => ?_, fun heq => ?_⟩, fun s => s.property⟩
  · unfold Ed25519Provider.decode_signature
    rw [dif_pos hne]
  · unfold Ed25519Provider.decode_signature
    rw [dif_neg (not_not.mpr heq)]
    rfl

/-- Witness for C5: a 63-byte input is rejected with the invalid-length error
and a 64-byte input decodes successfully. -/
theorem c5_witness :
    Ed25519Provider.decode_signature (List.replicate 63 (0 : Byte))
      = Except.error ⟨ErrorKind.invalidData, "Invalid signature length"⟩
    ∧ (Ed25519Provider.decode_signature (List.replicate 64 (0 : Byte))).isOk = true :=
  ⟨(c5_decode_length_encode_total.1 _).1 (by decide),
   (c5_decode_length_encode_total.1 _).2 (by decide)⟩

/-- Claim C6: for every message, structurally well-formed (64-byte) signature
and public key, the per-variant verify returns a boolean, returns `false` on
any cryptographic mismatch (a signature other than the one the key produces
over the message's signing bytes), and, being a total function into `Bool`,
never raises. -/
theorem c6_verify_false_on_mismatch (p : Ed25519Provider) (s : Signature)
    (pk : PublicKey) :
    (∀ v : BaseVote,
      (p.verify_signed_vote v s pk = true ∨ p.verify_signed_vote v s pk = false)
      ∧ (s ≠ PrivateKey.sign ⟨pk.point⟩ v.to_sign_bytes →
          p.verify_signed_vote v s pk = false))
    ∧ (∀ pr : BaseProposal,
      (p.verify_signed_proposal pr s pk = true
        ∨ p.verify_signed_proposal pr s pk = false)
      ∧ (s ≠ PrivateKey.sign ⟨pk.point⟩ pr.to_sign_bytes →
          p.verify_signed_proposal pr s pk = false))
    ∧ (∀ q : BaseProposalPart,
      (p.verify_signed_proposal_part q s pk = true
        ∨ p.verify_signed_proposal_part q s pk = false)
      ∧ (s ≠ PrivateKey.sign ⟨pk.point⟩ q.to_sign_bytes →
          p.verify_signed_proposal_part q s pk = false))
    ∧ (∀ b : List Byte,
      (p.verify_signed_vote_extension b s pk = true
        ∨ p.verify_signed_vote_extension b s pk = false)
      ∧ (s ≠ PrivateKey.sign ⟨pk.point⟩ b →
          p.verify_signed_vote_extension b s pk = false)) := by
  refine ⟨fun v => ⟨Bool.eq_false_or_eq_true _, fun hne => ?_⟩,
    fun pr => ⟨Bool.eq_false_or_eq_true _, fun hne => ?_⟩,
    fun q => ⟨Bool.eq_false_or_eq_true _, fun hne => ?_⟩,
    fun b => ⟨Bool.eq_false_or_eq_true _, fun hne => ?_⟩⟩
  all_goals
    simp only [Ed25519Provider.verify_signed_vote,
      Ed25519Provider.verify_signed_proposal,
      Ed25519Provider.verify_signed_proposal_part,
      Ed25519Provider.verify_signed_vote_extension, PublicKey.verify]
    rw [if_neg hne]
    rfl

/-- Witness for C6: a concrete all-zero 64-byte signature does not match the
signature key 2 would produce over the §8 vote's signing bytes, and verify
returns `false` on it. -/
theorem c6_witness :
    (Ed25519Provider.new ⟨1⟩).verify_signed_vote (BaseVote.mk 5 1 [] ⟨0⟩)
      ⟨List.replicate 64 (0 : Byte), by simp⟩ ⟨2⟩ = false :=
  ((c6_verify_false_on_mismatch (Ed25519Provider.new ⟨1⟩)
      ⟨List.replicate 64 (0 : Byte), by simp⟩ ⟨2⟩).1
    (BaseVote.mk 5 1 [] ⟨0⟩)).2 (by decide)

/-- Claim C7: `sign_vote_extension` signs the raw extension bytes with no
structural encoding or wrapping — the envelope carries the payload unchanged,
its signature equals the primitive `sign` of the payload — and
`verify_signed_vote_extension` verifies against those same raw bytes. -/
theorem c7_vote_extension_raw_bytes (p : Ed25519Provider) (b : List Byte)
    (s : Signature) (pk : PublicKey) :
    (p.sign_vote_extension b).message = b
    ∧ (p.sign_vote_extension b).signature = p.sign b
    ∧ p.verify_signed_vote_extension b s pk = p.verify b s pk :=
  ⟨rfl, rfl, rfl⟩

/-- Claim C8: for each structured variant, `sign_X` returns an envelope whose
message component is the original input unchanged and whose signature is the
primitive signature over `to_sign_bytes` with the provider's private key. -/
theorem c8_sign_envelope_structure (p : Ed25519Provider) :
    (∀ v : BaseVote, (p.sign_vote v).message = v
      ∧ (p.sign_vote v).signature = p.private_key.sign v.to_sign_bytes)
    ∧ (∀ pr : BaseProposal, (p.sign_proposal pr).message = pr
      ∧ (p.sign_proposal pr).signature = p.private_key.sign pr.to_sign_bytes)
    ∧ (∀ q : BaseProposalPart, (p.sign_proposal_part q).message = q
      ∧ (p.sign_proposal_part q).signature = p.private_key.sign q.to_sign_bytes) :=
  ⟨fun _ => ⟨rfl, rfl⟩, fun _ => ⟨rfl, rfl⟩, fun _ => ⟨rfl, rfl⟩⟩

/-- Claim C9: each per-variant verify equals the raw-bytes verify applied to
the message's canonical signing bytes. -/
theorem c9_verify_refines_raw_verify (p : Ed25519Provider) (s : Signature)
    (pk : PublicKey) :
    (∀ v : BaseVote,
      p.verify_signed_vote v s pk = p.verify v.to_sign_bytes s pk)
    ∧ (∀ pr : BaseProposal,
      p.verify_signed_proposal pr s pk = p.verify pr.to_sign_bytes s pk)
    ∧ (∀ q : BaseProposalPart,
      p.verify_signed_proposal_part q s pk = p.verify q.to_sign_bytes s pk) :=
  ⟨fun _ => rfl, fun _ => rfl, fun _ => rfl⟩

/-- Claim C10: `Ed25519Provider::default` delegates to `new_test`, so a
defaulted provider's private key is the fresh key `new_test` generates from
the process-wide RNG (modelled as the explicit `rng` state). -/
theorem c10_default_is_new_test (rng : Rng) :
    Ed25519Provider.default rng = Ed25519Provider.new_test rng
    ∧ (Ed25519Provider.default rng).private_key = PrivateKey.generate rng :=
  ⟨rfl, rfl⟩
